import Mathlib

/-!
Shallow embedding of the co-founder web application's page-level handlers
(ProtectedRoute, IndividualChatPage, SwipePage, SettingsPage, FeedPage).
React components are modelled as pure functions from view state (and the
outcomes of remote calls, passed explicitly) to view state plus an effect
record; JSX output is modelled as an inductive view value or a record of
rendered lists.
-/

/-- Embedding of JavaScript's stable `Array.prototype.sort` with a comparator:
a stable insertion sort parameterised by the comparator's induced `le` test. -/
def sortByLE {α : Type} (le : α → α → Bool) : List α → List α
  | [] => []
  | x :: xs => insertLE x (sortByLE le xs)
where
  insertLE (x : α) : List α → List α
    | [] => [x]
    | y :: ys => if le x y then x :: y :: ys else y :: insertLE x ys

/-- Embedding of JavaScript's `String.prototype.trim`: strip leading and
trailing whitespace characters. -/
def jsTrim (s : String) : String :=
  String.mk (((s.data.dropWhile Char.isWhitespace).reverse.dropWhile Char.isWhitespace).reverse)

namespace Gate

/-- One row of the GetUserProfileStatus query result (`profiles` table,
filtered by `user_id`, limit 1). -/
structure ProfileStatusRow where
  user_id : String
  profile_complete : Bool
  deriving Repr, DecidableEq

/-- What ProfileCompletionGate renders: the loading placeholder, the error
placeholder, a `<Navigate to="/profile-setup">`, or the protected child. -/
inductive GateView where
  | loadingView : GateView
  | errorView : GateView
  | redirectToProfileSetup : GateView
  | childView : GateView
  deriving Repr, DecidableEq

/-- View state of ProfileCompletionGate: the authenticated user's id (when
present), the query's loading/error flags, and the fetched `profiles` rows. -/
structure GateState where
  user : Option String
  loading : Bool
  queryError : Bool
  profiles : List ProfileStatusRow
  deriving Repr, DecidableEq

/-- ProfileCompletionGate's render body: loading and error placeholders first;
then `profile = data?.profiles[0]`, `isProfileComplete = profile?.profile_complete`
(undefined when the row is missing, hence falsy), and
`if (user && !isProfileComplete) return <Navigate to="/profile-setup" .../>`,
otherwise the children are rendered. -/
def profileCompletionGate (s : GateState) : GateView :=
  if s.loading then GateView.loadingView
  else if s.queryError then GateView.errorView
  else
    let profile := s.profiles.head?
    let isProfileComplete := (profile.map (fun p => p.profile_complete)).getD false
    match s.user with
    | some _ => if !isProfileComplete then GateView.redirectToProfileSetup else GateView.childView
    | none => GateView.childView

end Gate

/-- C1: for every authenticated user whose fetched profile record is missing or
has profile_complete = false, ProfileCompletionGate renders the redirect to
/profile-setup and does not render the protected child route. -/
theorem claim_c1_incomplete_profile_redirects (s : Gate.GateState) (u : String)
    (hu : s.user = some u) (hl : s.loading = false) (he : s.queryError = false)
    (hp : s.profiles = [] ∨ ∃ p rest, s.profiles = p :: rest ∧ p.profile_complete = false) :
    Gate.profileCompletionGate s = Gate.GateView.redirectToProfileSetup ∧
      Gate.profileCompletionGate s ≠ Gate.GateView.childView := by
  have hgate : Gate.profileCompletionGate s = Gate.GateView.redirectToProfileSetup := by
    unfold Gate.profileCompletionGate
    rw [hl, he, hu]
    rcases hp with h | ⟨p, rest, hcons, hfalse⟩
    · simp [h]
    · simp [hcons, hfalse]
  exact ⟨hgate, by rw [hgate]; intro h; cases h⟩

/-- Witness for C1 at a concrete state: an authenticated user with a fetched
profile row carrying profile_complete = false is redirected. -/
theorem claim_c1_witness :
    let s : Gate.GateState :=
      { user := some "u1", loading := false, queryError := false,
        profiles := [{ user_id := "u1", profile_complete := false }] }
    Gate.profileCompletionGate s = Gate.GateView.redirectToProfileSetup ∧
      Gate.profileCompletionGate s ≠ Gate.GateView.childView :=
  claim_c1_incomplete_profile_redirects _ "u1" rfl rfl rfl
    (Or.inr ⟨{ user_id := "u1", profile_complete := false }, [], rfl, rfl⟩)

namespace Chat

/-- One `messages` row as fetched by GetMessages / delivered by
OnNewMessage. `created_at` is the timestamp's `getTime()` value. -/
structure Message where
  id : String
  sender_id : String
  receiver_id : String
  content : String
  created_at : Int
  is_read : Bool
  deriving Repr, DecidableEq

/-- View state of IndividualChatPage: the GET_MESSAGES query result
(`messagesData`, absent until the first response), the controlled input's
value, and the send mutation's in-flight flag. -/
structure ChatState where
  messagesData : Option (List Message)
  newMessageContent : String
  sendingMessage : Bool
  deriving Repr, DecidableEq

/-- The merged list the onData handler computes: append the subscription
messages not already present by id, then sort ascending by `created_at`
(`combinedMessages.sort((a,b) => a - b)`). -/
def combinedMessages (existing newMessages : List Message) : List Message :=
  let merged := existing ++ newMessages.filter
    (fun nm => !((existing.find? (fun em => em.id == nm.id)).isSome))
  sortByLE (fun a b => a.created_at ≤ b.created_at) merged

/-- The ON_NEW_MESSAGE_SUBSCRIPTION onData handler: when a payload with
messages arrives and the query result exists and the payload is non-empty, it
computes `combinedMessages` and logs to the console, but performs no state or
cache update — every branch returns the state unchanged. -/
def onDataHandler (s : ChatState) (subscriptionData : Option (List Message)) : ChatState :=
  match subscriptionData with
  | none => s
  | some newMessages =>
    match s.messagesData with
    | none => s
    | some existing =>
      if newMessages.length > 0 then
        let _combined := combinedMessages existing newMessages
        s
      else s

/-- The message list the page renders: `messagesData?.messages || []`. -/
def renderedMessages (s : ChatState) : List Message :=
  s.messagesData.getD []

/-- The input element's disabled attribute: `disabled={sendingMessage}`. -/
def inputDisabled (s : ChatState) : Bool :=
  s.sendingMessage

/-- The send button's disabled attribute:
`disabled={sendingMessage || !newMessageContent.trim()}`. -/
def sendButtonDisabled (s : ChatState) : Bool :=
  s.sendingMessage || jsTrim s.newMessageContent == ""

/-- Outcome of the SendMessage mutation, passed explicitly: the inserted row
on success, or a thrown error. -/
inductive SendOutcome where
  | success (m : Message)
  | failure
  deriving Repr, DecidableEq

/-- Observable effects of one handleSendMessage invocation. -/
structure SendEffects where
  mutationIssued : Bool
  consoleErrors : List String
  alerts : List String
  deriving Repr, DecidableEq

/-- handleSendMessage: return early when the trimmed content is empty or a
user id is missing; otherwise issue the mutation, and on success append the
inserted row to the cached query result and clear the input, while on a
thrown error log to the console and show a blocking alert. -/
def handleSendMessage (currentUserId targetUserId : Option String)
    (s : ChatState) (outcome : SendOutcome) : ChatState × SendEffects :=
  if jsTrim s.newMessageContent == "" || currentUserId.isNone || targetUserId.isNone then
    (s, { mutationIssued := false, consoleErrors := [], alerts := [] })
  else
    match outcome with
    | SendOutcome.success m =>
      ({ s with
          messagesData := s.messagesData.map (fun ms => ms ++ [m]),
          newMessageContent := "" },
       { mutationIssued := true, consoleErrors := [], alerts := [] })
    | SendOutcome.failure =>
      (s, { mutationIssued := true,
            consoleErrors := ["Error sending message:"],
            alerts := ["Failed to send message."] })

/-- Outcome of the MarkConversationAsRead mutation: the affected row count on
success, or a rejection. -/
inductive MarkReadOutcome where
  | success (affected_rows : Nat)
  | failure
  deriving Repr, DecidableEq

/-- The mount/update effect issuing MarkConversationAsRead: when both user ids
are present the mutation is issued, and a rejection is caught by the attached
`.catch`, which logs "Failed to mark messages as read:" to the console and
shows no alert; the local view state is never touched. -/
def markAsReadEffect (currentUserId targetUserId : Option String)
    (outcome : MarkReadOutcome) : SendEffects :=
  match currentUserId, targetUserId with
  | some _, some _ =>
    match outcome with
    | MarkReadOutcome.success _ =>
      { mutationIssued := true, consoleErrors := [], alerts := [] }
    | MarkReadOutcome.failure =>
      { mutationIssued := true,
        consoleErrors := ["Failed to mark messages as read:"], alerts := [] }
  | _, _ => { mutationIssued := false, consoleErrors := [], alerts := [] }

end Chat

/-- C2: a subscription delivery on the individual chat page leaves the
displayed message list unchanged — the onData handler computes the merged,
deduplicated, sorted combined list but discards it, so the rendered list after
the delivery equals the list rendered before it. -/
theorem claim_c2_subscription_delivery_is_noop (s : Chat.ChatState)
    (subscriptionData : Option (List Chat.Message)) :
    Chat.renderedMessages (Chat.onDataHandler s subscriptionData) = Chat.renderedMessages s := by
  unfold Chat.onDataHandler
  cases subscriptionData with
  | none => rfl
  | some newMessages =>
    cases h : s.messagesData with
    | none => simp [h]
    | some existing => simp [h]

/-- C9: while the send mutation is in flight (`sendingMessage = true`), both
the message input and the send button render as disabled. -/
theorem claim_c9_inflight_send_disables_input (s : Chat.ChatState)
    (h : s.sendingMessage = true) :
    Chat.inputDisabled s = true ∧ Chat.sendButtonDisabled s = true := by
  unfold Chat.inputDisabled Chat.sendButtonDisabled
  rw [h]
  exact ⟨rfl, rfl⟩

/-- Witness for C9 at a concrete state with an in-flight send. -/
theorem claim_c9_witness :
    let s : Chat.ChatState :=
      { messagesData := some [], newMessageContent := "hello", sendingMessage := true }
    Chat.inputDisabled s = true ∧ Chat.sendButtonDisabled s = true :=
  claim_c9_inflight_send_disables_input _ rfl

/-- C10: a message whose content trims to empty is never sent — submitting the
form returns without issuing the mutation and leaves the state unchanged, and
the send button renders disabled for such content. -/
theorem claim_c10_blank_message_never_sent (currentUserId targetUserId : Option String)
    (s : Chat.ChatState) (outcome : Chat.SendOutcome)
    (h : jsTrim s.newMessageContent = "") :
    Chat.handleSendMessage currentUserId targetUserId s outcome =
      (s, { mutationIssued := false, consoleErrors := [], alerts := [] }) ∧
      Chat.sendButtonDisabled s = true := by
  constructor
  · unfold Chat.handleSendMessage
    simp [h]
  · unfold Chat.sendButtonDisabled
    simp [h]

/-- Witness for C10 at a concrete whitespace-only input. -/
theorem claim_c10_witness :
    let s : Chat.ChatState :=
      { messagesData := some [], newMessageContent := "   ", sendingMessage := false }
    Chat.handleSendMessage (some "u") (some "v") s Chat.SendOutcome.failure =
      (s, { mutationIssued := false, consoleErrors := [], alerts := [] }) ∧
      Chat.sendButtonDisabled s = true :=
  claim_c10_blank_message_never_sent (some "u") (some "v") _ Chat.SendOutcome.failure rfl

namespace Swipe

/-- One candidate profile as fetched by GetSwipeCandidates (only the fields
the handlers consult are carried). -/
structure Profile where
  user_id : String
  username : String
  deriving Repr, DecidableEq

/-- One `swipes` row on the server, as filtered by CheckForMatch. -/
structure SwipeRow where
  swiper_user_id : String
  swiped_user_id : String
  action : String
  deriving Repr, DecidableEq

/-- The CHECK_FOR_MATCH_QUERY evaluated over the server's `swipes` rows:
rows where the swiped user has recorded a "like" on the current user,
limit 1. -/
def checkForMatchQuery (db : List SwipeRow) (currentUserId swipedUserId : String) :
    List SwipeRow :=
  (db.filter (fun r =>
    r.swiper_user_id == swipedUserId && r.swiped_user_id == currentUserId &&
      r.action == "like")).take 1

/-- View state of SwipePage. -/
structure SwipeState where
  profiles : List Profile
  currentIndex : Nat
  showMatchModal : Bool
  matchedUserName : String
  savedProfileIds : List String
  deriving Repr, DecidableEq

/-- handleAdvanceCard: if `currentIndex >= profiles.length - 1` (JavaScript
number arithmetic, embedded over Int) refetch the candidates, else increment
the index. The Bool records whether refetchCandidates was called. -/
def handleAdvanceCard (s : SwipeState) : SwipeState × Bool :=
  if (s.currentIndex : Int) ≥ (s.profiles.length : Int) - 1 then
    (s, true)
  else
    ({ s with currentIndex := s.currentIndex + 1 }, false)

/-- Outcome of a remote mutation or refetched query, passed explicitly. -/
inductive MutationOutcome where
  | success
  | failure
  deriving Repr, DecidableEq

/-- Observable effects of one handleSwipe invocation. -/
structure SwipeEffects where
  recordSwipeIssued : Bool
  checkForMatchIssued : Bool
  candidatesRefetched : Bool
  consoleErrors : List String
  alerts : List String
  deriving Repr, DecidableEq

/-- handleSwipe: bail out without a user id; otherwise advance the card first,
then record the swipe; on a "like" that recorded successfully, run
CheckForMatch and open the match modal when it returns a row (the modal's name
falls back to "Someone" when the swiped profile is absent or its username is
empty, per `matchedProfile?.username || 'Someone'`). A thrown error from
either call is swallowed by the catch block, whose console.error is commented
out and which shows no alert. -/
def handleSwipe (currentUserId : Option String) (swipedUserId : String)
    (action : String) (recordOutcome checkOutcome : MutationOutcome)
    (db : List SwipeRow) (s : SwipeState) : SwipeState × SwipeEffects :=
  match currentUserId with
  | none =>
    (s, { recordSwipeIssued := false, checkForMatchIssued := false,
          candidatesRefetched := false, consoleErrors := [], alerts := [] })
  | some uid =>
    let advanced := handleAdvanceCard s
    let s1 := advanced.1
    let refetched := advanced.2
    match recordOutcome with
    | MutationOutcome.failure =>
      (s1, { recordSwipeIssued := true, checkForMatchIssued := false,
             candidatesRefetched := refetched, consoleErrors := [], alerts := [] })
    | MutationOutcome.success =>
      if action == "like" then
        match checkOutcome with
        | MutationOutcome.failure =>
          (s1, { recordSwipeIssued := true, checkForMatchIssued := true,
                 candidatesRefetched := refetched, consoleErrors := [], alerts := [] })
        | MutationOutcome.success =>
          let matchResult := checkForMatchQuery db uid swipedUserId
          if matchResult.length > 0 then
            let matchedProfile := s.profiles.find? (fun p => p.user_id == swipedUserId)
            let uname :=
              match matchedProfile with
              | some p => if p.username == "" then "Someone" else p.username
              | none => "Someone"
            ({ s1 with showMatchModal := true, matchedUserName := uname },
             { recordSwipeIssued := true, checkForMatchIssued := true,
               candidatesRefetched := refetched, consoleErrors := [], alerts := [] })
          else
            (s1, { recordSwipeIssued := true, checkForMatchIssued := true,
                   candidatesRefetched := refetched, consoleErrors := [], alerts := [] })
      else
        (s1, { recordSwipeIssued := true, checkForMatchIssued := false,
               candidatesRefetched := refetched, consoleErrors := [], alerts := [] })

/-- Observable effects of one handleSaveToggle invocation. The handler never
calls refetchCandidates, so `candidatesRefetched` is false on every path. -/
structure SaveEffects where
  saveIssued : Bool
  unsaveIssued : Bool
  savedIdsRefetched : Bool
  candidatesRefetched : Bool
  consoleErrors : List String
  alerts : List String
  deriving Repr, DecidableEq

/-- handleSaveToggle: bail out without a user id; otherwise unsave when the
profile is currently saved, else save, then refetch the saved-id set; a thrown
error is logged to console ("Error toggling save state:") with no alert. The
local state (in particular `currentIndex`) is not changed by the handler —
`savedProfileIds` is only updated later by the refetch's onCompleted. -/
def handleSaveToggle (currentUserId : Option String) (profileToSaveId : String)
    (outcome : MutationOutcome) (s : SwipeState) : SwipeState × SaveEffects :=
  match currentUserId with
  | none =>
    (s, { saveIssued := false, unsaveIssued := false, savedIdsRefetched := false,
          candidatesRefetched := false, consoleErrors := [], alerts := [] })
  | some _ =>
    let isCurrentlySaved := s.savedProfileIds.contains profileToSaveId
    match outcome with
    | MutationOutcome.success =>
      (s, { saveIssued := !isCurrentlySaved, unsaveIssued := isCurrentlySaved,
            savedIdsRefetched := true, candidatesRefetched := false,
            consoleErrors := [], alerts := [] })
    | MutationOutcome.failure =>
      (s, { saveIssued := !isCurrentlySaved, unsaveIssued := isCurrentlySaved,
            savedIdsRefetched := false, candidatesRefetched := false,
            consoleErrors := ["Error toggling save state:"], alerts := [] })

end Swipe

/-- handleAdvanceCard either increments the index without refetching, or
leaves the state unchanged and refetches. -/
theorem Swipe.handleAdvanceCard_cases (s : Swipe.SwipeState) :
    ((Swipe.handleAdvanceCard s).1.currentIndex = s.currentIndex + 1 ∧
       (Swipe.handleAdvanceCard s).2 = false) ∨
    ((Swipe.handleAdvanceCard s).1.currentIndex = s.currentIndex ∧
       (Swipe.handleAdvanceCard s).2 = true) := by
  unfold Swipe.handleAdvanceCard
  split
  · exact Or.inr ⟨rfl, rfl⟩
  · exact Or.inl ⟨rfl, rfl⟩

/-- handleAdvanceCard does not touch the match-modal flag. -/
theorem Swipe.handleAdvanceCard_showMatchModal (s : Swipe.SwipeState) :
    (Swipe.handleAdvanceCard s).1.showMatchModal = s.showMatchModal := by
  unfold Swipe.handleAdvanceCard
  split <;> rfl

/-- C6: when the current index is at or past the last loaded candidate,
handleAdvanceCard refetches the candidates and leaves the state (in
particular the index) unchanged. -/
theorem claim_c6_advance_at_end_refetches (s : Swipe.SwipeState)
    (h : (s.currentIndex : Int) ≥ (s.profiles.length : Int) - 1) :
    Swipe.handleAdvanceCard s = (s, true) := by
  unfold Swipe.handleAdvanceCard
  rw [if_pos h]

/-- Witness for C6: at the last of two loaded candidates, swiping refetches. -/
theorem claim_c6_witness :
    let s : Swipe.SwipeState :=
      { profiles := [{ user_id := "a", username := "A" }, { user_id := "b", username := "B" }],
        currentIndex := 1, showMatchModal := false, matchedUserName := "",
        savedProfileIds := [] }
    Swipe.handleAdvanceCard s = (s, true) :=
  claim_c6_advance_at_end_refetches _ (by decide)

/-- The CheckForMatch result is non-empty exactly when the server holds a
"like" swipe by the swiped user on the current user. -/
theorem Swipe.checkForMatchQuery_pos_iff (db : List Swipe.SwipeRow) (uid swid : String) :
    0 < (Swipe.checkForMatchQuery db uid swid).length ↔
      ∃ r ∈ db, r.swiper_user_id = swid ∧ r.swiped_user_id = uid ∧ r.action = "like" := by
  unfold Swipe.checkForMatchQuery
  simp [List.length_take, Nat.lt_min, List.length_pos, List.filter_eq_nil_iff, and_assoc]

/-- C3: on a "like" (with both remote calls succeeding) the match modal opens
if and only if CheckForMatch returns at least one existing "like" swipe by the
swiped user on the current user; on a "pass" no reciprocal-like check is
issued and the modal stays closed. -/
theorem claim_c3_match_modal_iff_reciprocal_like (uid swid : String)
    (db : List Swipe.SwipeRow) (s : Swipe.SwipeState)
    (hmodal : s.showMatchModal = false) :
    ((Swipe.handleSwipe (some uid) swid "like" Swipe.MutationOutcome.success
        Swipe.MutationOutcome.success db s).1.showMatchModal = true ↔
      ∃ r ∈ db, r.swiper_user_id = swid ∧ r.swiped_user_id = uid ∧ r.action = "like") ∧
    (Swipe.handleSwipe (some uid) swid "pass" Swipe.MutationOutcome.success
        Swipe.MutationOutcome.success db s).2.checkForMatchIssued = false ∧
    (Swipe.handleSwipe (some uid) swid "pass" Swipe.MutationOutcome.success
        Swipe.MutationOutcome.success db s).1.showMatchModal = false := by
  refine ⟨?_, ?_, ?_⟩
  · rw [← Swipe.checkForMatchQuery_pos_iff db uid swid]
    unfold Swipe.handleSwipe
    by_cases hq : 0 < (Swipe.checkForMatchQuery db uid swid).length
    · simp only [hq, if_pos hq, iff_true]
      rfl
    · simp only [if_neg hq, iff_false]
      simp only [show (("like" == "like") = true) from rfl, if_true]
      rw [Swipe.handleAdvanceCard_showMatchModal, hmodal]
      simp [hq]
  · unfold Swipe.handleSwipe
    rfl
  · unfold Swipe.handleSwipe
    simp only [show (("pass" == "like") = false) from rfl, Bool.false_eq_true, if_false]
    rw [Swipe.handleAdvanceCard_showMatchModal, hmodal]

/-- Witness for C3 at concrete inputs: a stored reciprocal like opens the
modal on a "like", and a "pass" issues no check. -/
theorem claim_c3_witness :
    let db : List Swipe.SwipeRow :=
      [{ swiper_user_id := "other", swiped_user_id := "me", action := "like" }]
    let s : Swipe.SwipeState :=
      { profiles := [{ user_id := "other", username := "Ada" }], currentIndex := 0,
        showMatchModal := false, matchedUserName := "", savedProfileIds := [] }
    ((Swipe.handleSwipe (some "me") "other" "like" Swipe.MutationOutcome.success
        Swipe.MutationOutcome.success db s).1.showMatchModal = true ↔
      ∃ r ∈ db, r.swiper_user_id = "other" ∧ r.swiped_user_id = "me" ∧ r.action = "like") ∧
    (Swipe.handleSwipe (some "me") "other" "pass" Swipe.MutationOutcome.success
        Swipe.MutationOutcome.success db s).2.checkForMatchIssued = false ∧
    (Swipe.handleSwipe (some "me") "other" "pass" Swipe.MutationOutcome.success
        Swipe.MutationOutcome.success db s).1.showMatchModal = false :=
  claim_c3_match_modal_iff_reciprocal_like "me" "other" _ _ rfl

/-- handleSwipe's index change and candidate refetch are exactly those of the
handleAdvanceCard call it makes first. -/
theorem Swipe.handleSwipe_index_refetch (uid swid action : String)
    (ro co : Swipe.MutationOutcome) (db : List Swipe.SwipeRow) (s : Swipe.SwipeState) :
    (Swipe.handleSwipe (some uid) swid action ro co db s).1.currentIndex =
      (Swipe.handleAdvanceCard s).1.currentIndex ∧
    (Swipe.handleSwipe (some uid) swid action ro co db s).2.candidatesRefetched =
      (Swipe.handleAdvanceCard s).2 := by
  refine ⟨?_, ?_⟩ <;>
    (unfold Swipe.handleSwipe
     cases ro with
     | failure => rfl
     | success =>
       by_cases h : (action == "like") = true
       · simp only [h, if_true]
         cases co with
         | failure => rfl
         | success =>
           by_cases hq : (Swipe.checkForMatchQuery db uid swid).length > 0
           · rw [if_pos hq]
           · rw [if_neg hq]
       · simp only [h, Bool.false_eq_true, if_false])

/-- C4 counterexample: a save action on the current card (three candidates
loaded, index 0) leaves the card index at 0 and triggers no candidate refetch,
so not every save action advances the card. -/
theorem claim_c4_counterexample_save_does_not_advance :
    let s : Swipe.SwipeState :=
      { profiles := [{ user_id := "a", username := "A" }, { user_id := "b", username := "B" },
                     { user_id := "c", username := "C" }],
        currentIndex := 0, showMatchModal := false, matchedUserName := "",
        savedProfileIds := [] }
    (Swipe.handleSaveToggle (some "me") "a" Swipe.MutationOutcome.success s).1.currentIndex
        = 0 ∧
    (Swipe.handleSaveToggle (some "me") "a" Swipe.MutationOutcome.success s).2.candidatesRefetched
        = false := by
  exact ⟨rfl, rfl⟩

/-- C4 amended: every swipe action (with an authenticated user) either
advances the card index by one or, at the last loaded candidate, leaves it
unchanged and refetches the candidates; a save action never changes the local
state or refetches the candidates. -/
theorem claim_c4_amended_only_swipes_advance :
    (∀ (uid swid action : String) (ro co : Swipe.MutationOutcome)
        (db : List Swipe.SwipeRow) (s : Swipe.SwipeState),
      ((Swipe.handleSwipe (some uid) swid action ro co db s).1.currentIndex =
          s.currentIndex + 1 ∧
        (Swipe.handleSwipe (some uid) swid action ro co db s).2.candidatesRefetched = false) ∨
      ((Swipe.handleSwipe (some uid) swid action ro co db s).1.currentIndex = s.currentIndex ∧
        (Swipe.handleSwipe (some uid) swid action ro co db s).2.candidatesRefetched = true)) ∧
    (∀ (uid pid : String) (o : Swipe.MutationOutcome) (s : Swipe.SwipeState),
      (Swipe.handleSaveToggle (some uid) pid o s).1 = s ∧
      (Swipe.handleSaveToggle (some uid) pid o s).2.candidatesRefetched = false) := by
  constructor
  · intro uid swid action ro co db s
    obtain ⟨hi, hr⟩ := Swipe.handleSwipe_index_refetch uid swid action ro co db s
    rcases Swipe.handleAdvanceCard_cases s with ⟨ha, hb⟩ | ⟨ha, hb⟩
    · exact Or.inl ⟨by rw [hi, ha], by rw [hr, hb]⟩
    · exact Or.inr ⟨by rw [hi, ha], by rw [hr, hb]⟩
  · intro uid pid o s
    cases o <;> exact ⟨rfl, rfl⟩

/-- C5 counterexample: a failed RecordSwipe mutation (the swipe was issued and
threw) produces no console log and no alert — its catch block is empty — so
not every failed mutation is logged and surfaced via an alert. -/
theorem claim_c5_counterexample_swipe_failure_silent :
    let s : Swipe.SwipeState :=
      { profiles := [{ user_id := "other", username := "Ada" }], currentIndex := 0,
        showMatchModal := false, matchedUserName := "", savedProfileIds := [] }
    (Swipe.handleSwipe (some "me") "other" "like" Swipe.MutationOutcome.failure
        Swipe.MutationOutcome.success [] s).2.recordSwipeIssued = true ∧
    (Swipe.handleSwipe (some "me") "other" "like" Swipe.MutationOutcome.failure
        Swipe.MutationOutcome.success [] s).2.consoleErrors = [] ∧
    (Swipe.handleSwipe (some "me") "other" "like" Swipe.MutationOutcome.failure
        Swipe.MutationOutcome.success [] s).2.alerts = [] := by
  exact ⟨rfl, rfl, rfl⟩

/-- C5 amended: every failure is caught at its call site (each handler
returns normally), but the surfacing varies: a failed swipe recording is
swallowed silently (no console log, no alert), a failed save toggle and a
failed mark-as-read are logged to the console without an alert, and only a
failed chat send is both logged and surfaced via a blocking alert. -/
theorem claim_c5_amended_error_surfacing_varies :
    (∀ (uid swid action : String) (co : Swipe.MutationOutcome)
        (db : List Swipe.SwipeRow) (s : Swipe.SwipeState),
      (Swipe.handleSwipe (some uid) swid action Swipe.MutationOutcome.failure
          co db s).2.consoleErrors = [] ∧
      (Swipe.handleSwipe (some uid) swid action Swipe.MutationOutcome.failure
          co db s).2.alerts = []) ∧
    (∀ (uid pid : String) (s : Swipe.SwipeState),
      (Swipe.handleSaveToggle (some uid) pid Swipe.MutationOutcome.failure
          s).2.consoleErrors = ["Error toggling save state:"] ∧
      (Swipe.handleSaveToggle (some uid) pid Swipe.MutationOutcome.failure
          s).2.alerts = []) ∧
    (∀ (uid tid : String),
      (Chat.markAsReadEffect (some uid) (some tid)
          Chat.MarkReadOutcome.failure).consoleErrors =
        ["Failed to mark messages as read:"] ∧
      (Chat.markAsReadEffect (some uid) (some tid)
          Chat.MarkReadOutcome.failure).alerts = []) ∧
    (∀ (cu tu : Option String) (s : Chat.ChatState),
      jsTrim s.newMessageContent ≠ "" → cu.isSome = true → tu.isSome = true →
      (Chat.handleSendMessage cu tu s Chat.SendOutcome.failure).2.consoleErrors =
          ["Error sending message:"] ∧
      (Chat.handleSendMessage cu tu s Chat.SendOutcome.failure).2.alerts =
          ["Failed to send message."]) := by
  refine ⟨?_, ?_, ?_, ?_⟩
  · intro uid swid action co db s
    exact ⟨rfl, rfl⟩
  · intro uid pid s
    exact ⟨rfl, rfl⟩
  · intro uid tid
    exact ⟨rfl, rfl⟩
  · intro cu tu s hne hcu htu
    cases cu with
    | none => simp at hcu
    | some u =>
      cases tu with
      | none => simp at htu
      | some v =>
        have hb : (jsTrim s.newMessageContent == "") = false := beq_eq_false_iff_ne.mpr hne
        unfold Chat.handleSendMessage
        simp [hb]

/-- Witness for C5 amended at concrete inputs, discharging the non-blank
content and present-user hypotheses. -/
theorem claim_c5_amended_witness :
    jsTrim "hi" ≠ "" ∧
    (Swipe.handleSwipe (some "u") "v" "like" Swipe.MutationOutcome.failure
        Swipe.MutationOutcome.success []
        { profiles := [], currentIndex := 0, showMatchModal := false,
          matchedUserName := "", savedProfileIds := [] }).2.alerts = [] ∧
    (Swipe.handleSaveToggle (some "u") "v" Swipe.MutationOutcome.failure
        { profiles := [], currentIndex := 0, showMatchModal := false,
          matchedUserName := "", savedProfileIds := [] }).2.consoleErrors =
      ["Error toggling save state:"] ∧
    (Chat.markAsReadEffect (some "u") (some "v")
        Chat.MarkReadOutcome.failure).consoleErrors =
      ["Failed to mark messages as read:"] ∧
    (Chat.handleSendMessage (some "u") (some "v")
        { messagesData := some [], newMessageContent := "hi", sendingMessage := false }
        Chat.SendOutcome.failure).2.alerts = ["Failed to send message."] :=
  ⟨by decide,
   (claim_c5_amended_error_surfacing_varies.1 "u" "v" "like"
       Swipe.MutationOutcome.success [] _).2,
   (claim_c5_amended_error_surfacing_varies.2.1 "u" "v" _).1,
   (claim_c5_amended_error_surfacing_varies.2.2.1 "u" "v").1,
   (claim_c5_amended_error_surfacing_varies.2.2.2 (some "u") (some "v") _
       (by decide) rfl rfl).2⟩

namespace Settings

/-- Embedding of JavaScript's `fileName.split('.')`. -/
def splitOnDot (s : String) : List String :=
  go s.data []
where
  go : List Char → List Char → List String
    | [], acc => [String.mk acc.reverse]
    | c :: rest, acc =>
      if c == '.' then String.mk acc.reverse :: go rest []
      else go rest (c :: acc)

/-- Metadata returned by a successful object-storage upload. -/
structure FileMetadata where
  id : String
  deriving Repr, DecidableEq

/-- Outcome of `nhost.storage.upload`: either file metadata or an upload
error (whose message reaches the alert). -/
inductive UploadResult where
  | ok (m : FileMetadata)
  | err (msg : String)
  deriving Repr, DecidableEq

/-- Outcome of the UpsertUserProfile mutation. -/
inductive UpsertOutcome where
  | success
  | failure (msg : String)
  deriving Repr, DecidableEq

/-- The settings form state relevant here: the stored avatar URL
(`formData.avatarUrl`) and the remaining wide-profile fields, carried
opaquely as key/value pairs. -/
structure SettingsForm where
  avatarUrl : String
  fields : List (String × String)
  deriving Repr, DecidableEq

/-- Variables of the profile upsert: the user id, the avatar URL actually
embedded, and the rest of the form. -/
structure UpsertVariables where
  userId : String
  avatarUrl : String
  fields : List (String × String)
  deriving Repr, DecidableEq

/-- One observable step of handleSubmit, in program order. -/
inductive SEvent where
  | storageUpload (name : String)
  | profileUpsert (vars : UpsertVariables)
  | consoleError (msg : String)
  | alertShown (msg : String)
  | refetchProfile
  deriving Repr, DecidableEq

/-- Whether an event is the profile upsert mutation. -/
def SEvent.isUpsert : SEvent → Bool
  | SEvent.profileUpsert _ => true
  | _ => false

/-- The storage object name used by the upload:
`avatars/${currentUserId}/avatar.${avatarFile.name.split('.').pop()}`. -/
def uploadName (uid fileName : String) : String :=
  "avatars/" ++ uid ++ "/avatar." ++ (splitOnDot fileName).getLastD ""

/-- The tail of handleSubmit after `finalAvatarUrl` is fixed: issue the upsert
with the form's variables and the chosen avatar URL, then alert success and
refetch, or log and alert the error. -/
def upsertEvents (uid url : String) (form : SettingsForm)
    (outcome : UpsertOutcome) : List SEvent :=
  SEvent.profileUpsert { userId := uid, avatarUrl := url, fields := form.fields } ::
    match outcome with
    | UpsertOutcome.success =>
      [SEvent.alertShown "Profile updated successfully!", SEvent.refetchProfile]
    | UpsertOutcome.failure msg =>
      [SEvent.consoleError "Error updating profile:",
       SEvent.alertShown ("Error updating profile: " ++ msg)]

/-- SettingsPage handleSubmit as its event trace: bail out without a user id;
with a newly selected avatar file, upload it first — aborting the submission
(log, alert, return) when the upload fails, and otherwise embedding the
public URL returned for the uploaded file — then issue the profile upsert;
without a new file the stored `formData.avatarUrl` is kept. -/
def handleSubmit (getPublicUrl : String → String) (currentUserId : Option String)
    (avatarFile : Option String) (form : SettingsForm)
    (uploadResult : UploadResult) (upsertOutcome : UpsertOutcome) : List SEvent :=
  match currentUserId with
  | none => []
  | some uid =>
    match avatarFile with
    | some fileName =>
      match uploadResult with
      | UploadResult.err msg =>
        [SEvent.storageUpload (uploadName uid fileName),
         SEvent.consoleError "Error uploading avatar:",
         SEvent.alertShown ("Error uploading avatar: " ++ msg)]
      | UploadResult.ok m =>
        SEvent.storageUpload (uploadName uid fileName) ::
          upsertEvents uid (getPublicUrl m.id) form upsertOutcome
    | none => upsertEvents uid form.avatarUrl form upsertOutcome

end Settings

/-- C7: with a newly selected avatar file, a successful upload strictly
precedes the profile upsert and the upsert's avatarUrl variable is the public
URL of the uploaded file; a failed upload aborts the submission with no upsert
ever issued. -/
theorem claim_c7_avatar_upload_before_upsert (getPublicUrl : String → String)
    (uid fileName errMsg : String) (form : Settings.SettingsForm)
    (m : Settings.FileMetadata) (outcome : Settings.UpsertOutcome) :
    Settings.handleSubmit getPublicUrl (some uid) (some fileName) form
        (Settings.UploadResult.ok m) outcome =
      Settings.SEvent.storageUpload (Settings.uploadName uid fileName) ::
        Settings.SEvent.profileUpsert
          { userId := uid, avatarUrl := getPublicUrl m.id, fields := form.fields } ::
        (Settings.upsertEvents uid (getPublicUrl m.id) form outcome).tail ∧
    (Settings.handleSubmit getPublicUrl (some uid) (some fileName) form
        (Settings.UploadResult.err errMsg) outcome).all
      (fun e => ! e.isUpsert) = true := by
  constructor
  · rfl
  · rfl

namespace Feed

/-- One persisted post, with its `created_at` as a `getTime()` value. -/
structure Post where
  id : String
  created_at : Int
  deriving Repr, DecidableEq

/-- One third-party news article, keyed by its URL. -/
structure NewsArticle where
  url : String
  publishedAt : Int
  deriving Repr, DecidableEq

/-- An element of combinedFeedItems: a post (`type: 'post'`) or a news
article (`type: 'news'`, with `id: n.url` and `created_at: n.publishedAt`). -/
inductive FeedItem where
  | postItem (p : Post)
  | newsItem (n : NewsArticle)
  deriving Repr, DecidableEq

/-- The combined item's `created_at` value used by the interleaving sort. -/
def feedItemCreatedAt : FeedItem → Int
  | FeedItem.postItem p => p.created_at
  | FeedItem.newsItem n => n.publishedAt

/-- combinedFeedItems: posts and news mapped into one list and sorted
descending by `created_at` (`(a,b) => b.created_at - a.created_at`). -/
def combinedFeedItems (posts : List Post) (news : List NewsArticle) : List FeedItem :=
  sortByLE (fun a b => feedItemCreatedAt b ≤ feedItemCreatedAt a)
    (posts.map FeedItem.postItem ++ news.map FeedItem.newsItem)

/-- What FeedPage renders: the news section (article URLs in fetched order)
followed by the posts section (post ids in fetched order). -/
structure FeedRender where
  newsSection : List String
  postsSection : List String
  deriving Repr, DecidableEq

/-- The FeedPage render body, with the locally computed combined list in
scope: the news section renders `newsArticles.map(...)` and the posts section
renders `posts.map(...)`; no JSX references the combined list. -/
def renderFeed (posts : List Post) (news : List NewsArticle)
    (_combined : List FeedItem) : FeedRender :=
  { newsSection := news.map (fun n => n.url),
    postsSection := posts.map (fun p => p.id) }

end Feed

/-- C8: the feed page's rendered output does not depend on combinedFeedItems —
rendering with the computed combined list equals rendering with it replaced by
an empty list, and the two sections are the independently fetched lists in
their own order. -/
theorem claim_c8_combined_feed_unused (posts : List Feed.Post)
    (news : List Feed.NewsArticle) :
    Feed.renderFeed posts news (Feed.combinedFeedItems posts news) =
      Feed.renderFeed posts news [] ∧
    (Feed.renderFeed posts news (Feed.combinedFeedItems posts news)).postsSection =
      posts.map (fun p => p.id) ∧
    (Feed.renderFeed posts news (Feed.combinedFeedItems posts news)).newsSection =
      news.map (fun n => n.url) := by
  exact ⟨rfl, rfl, rfl⟩
